import Mathlib

/-!
Verification of the project-store backend (`back.py`): a shallow embedding of
the Flask request handlers `save_project`, `list_projects`, `get_project`,
`export_project` and `delete_project`, with the filesystem data directory
modelled as an association list from filenames to file contents, and JSON
values modelled by the inductive type `JVal`.

Dynamic-typing corner cases where the Python code would raise a runtime
exception (caught and turned into an HTTP 500) are modelled as the
error/`none` branch; exotic inputs on which Python's duck typing would
accidentally succeed (e.g. a non-string iterable as `projectName`) are
outside the scope of the properties below and are also modelled as errors.
-/

set_option autoImplicit false
set_option maxRecDepth 8192

/-- A JSON value, as produced by `json.load` / consumed by `json.dump`.
Numbers are restricted to integers: every numeric field in the data model
(elapsed milliseconds) is integral. Objects are ordered key-value lists,
mirroring Python's insertion-ordered `dict` (keys are unique in any
decoded object). -/
inductive JVal where
  | str (s : String)
  | num (n : Int)
  | bool (b : Bool)
  | null
  | arr (elems : List JVal)
  | obj (fields : List (String × JVal))
deriving Repr

/-- Python dict `d.get(key)`: first binding of `key`, if any. -/
def jGet (fields : List (String × JVal)) (key : String) : Option JVal :=
  (fields.find? (fun p => p.1 == key)).map Prod.snd

/-- Python dict `d.get(key, default)`. -/
def jGetD (fields : List (String × JVal)) (key : String) (d : JVal) : JVal :=
  (jGet fields key).getD d

/-- Python dict assignment `d[key] = v`: replace in place if the key is present
(keeping its position), otherwise append the new binding at the end. -/
def objSet (fields : List (String × JVal)) (key : String) (v : JVal) :
    List (String × JVal) :=
  if fields.any (fun p => p.1 == key) then
    fields.map (fun p => if p.1 == key then (key, v) else p)
  else
    fields ++ [(key, v)]

/-- Python `len` on a JSON value: defined on strings, lists and dicts,
a `TypeError` (`none`) otherwise. -/
def pyLen : JVal → Option Nat
  | .str s => some s.length
  | .arr xs => some xs.length
  | .obj fs => some fs.length
  | _ => none

/-- Python truthiness of a JSON value (`not data` in the handler). -/
def pyTruthy : JVal → Bool
  | .str s => s != ""
  | .num n => n != 0
  | .bool b => b
  | .null => false
  | .arr xs => !xs.isEmpty
  | .obj fs => !fs.isEmpty

/-- Python `key in data` for a string key: key membership on dicts,
element membership on lists (string equality; `==` with a non-string is
`False`), substring on strings; `TypeError` (`none`) on numbers, booleans
and `None`. -/
def pyContainsKey (data : JVal) (key : String) : Option Bool :=
  match data with
  | .obj fs => some (fs.any (fun p => p.1 == key))
  | .arr xs => some (xs.any (fun v => match v with
      | .str s => s == key
      | _ => false))
  | .str s => some ((s.splitOn key).length > 1)
  | _ => none

/-- Python `int(x)` coercion as used by arithmetic: integers are themselves,
booleans are 0/1 (`bool` is an `int` subclass), anything else raises. -/
def asInt : JVal → Option Int
  | .num n => some n
  | .bool b => some (if b then 1 else 0)
  | _ => none

/-- View a JSON value as a list, when it is one. -/
def asArr : JVal → Option (List JVal)
  | .arr xs => some xs
  | _ => none

/-- View a JSON value as an object's field list, when it is one. -/
def asObj : JVal → Option (List (String × JVal))
  | .obj fs => some fs
  | _ => none

/-- Python's `f"{n:02d}"`: decimal rendering zero-padded to width two.
Only single-character renderings (the digits 0–9) need padding. -/
def pad2 (n : Int) : String :=
  let s := toString n
  if s.length < 2 then "0" ++ s else s

/-- The helper `format_time` from `export_project`: milliseconds to `MM:SS.CC`
(the last component, named `milliseconds` in the source, holds
centiseconds). Integer division and modulo are Python's floor
division / sign-of-divisor modulo. -/
def format_time (ms : Int) : String :=
  let minutes := Int.fdiv ms 60000
  let seconds := Int.fdiv (Int.fmod ms 60000) 1000
  let milliseconds := Int.fdiv (Int.fmod ms 1000) 10
  pad2 minutes ++ ":" ++ pad2 seconds ++ "." ++ pad2 milliseconds

/-- Zero-pad a natural number's decimal rendering to width two. -/
def pad2N (n : Nat) : String :=
  let s := toString n
  if s.length < 2 then "0" ++ s else s

/-- Spec-side duration formatter, written from the spec's words:
`MM:SS.CC` with `MM = ms div 60000`, `SS = (ms mod 60000) div 1000`,
`CC = (ms mod 1000) div 10`, each zero-padded to two digits. -/
def formatDurationSpec (ms : Nat) : String :=
  pad2N (ms / 60000) ++ ":" ++ pad2N (ms % 60000 / 1000) ++ "." ++
    pad2N (ms % 1000 / 10)

/-! ### The datetime values stamped by `save_project` -/

/-- A timestamp as observed from `datetime.now()`, at the resolution the
handlers use (seconds; `isoformat` microseconds are not modelled — the
properties below never inspect the fractional part). -/
structure PyDateTime where
  year : Nat
  month : Nat
  day : Nat
  hour : Nat
  minute : Nat
  second : Nat
deriving Repr

/-- Zero-pad a natural number's decimal rendering to width four
(Python's `%Y`). -/
def pad4N (n : Nat) : String :=
  let s := toString n
  if s.length < 4 then "".pushn '0' (4 - s.length) ++ s else s

/-- Python `datetime.strftime('%Y%m%d_%H%M%S')`. -/
def strftimeCompact (t : PyDateTime) : String :=
  pad4N t.year ++ pad2N t.month ++ pad2N t.day ++ "_" ++
    pad2N t.hour ++ pad2N t.minute ++ pad2N t.second

/-- Python `datetime.isoformat()` (with zero microseconds). -/
def isoformat (t : PyDateTime) : String :=
  pad4N t.year ++ "-" ++ pad2N t.month ++ "-" ++ pad2N t.day ++ "T" ++
    pad2N t.hour ++ ":" ++ pad2N t.minute ++ ":" ++ pad2N t.second

/-! ### The project store -/

/-- The set of Unicode code points on which CPython's `str.isalnum`
returns `True` (letters of categories Lu/Ll/Lt/Lm/Lo and numeric
characters of categories Nd/Nl/No, per the `unicodedata` tables),
written as inclusive code-point ranges. -/
def pyAlnumRanges : List (Nat × Nat) :=
  [(48, 57), (65, 90), (97, 122), (170, 170), (178, 179),
   (181, 181), (185, 186), (188, 190), (192, 214), (216, 246),
   (248, 705), (710, 721), (736, 740), (748, 748), (750, 750),
   (880, 884), (886, 887), (890, 893), (895, 895), (902, 902),
   (904, 906), (908, 908), (910, 929), (931, 1013), (1015, 1153),
   (1162, 1327), (1329, 1366), (1369, 1369), (1376, 1416), (1488, 1514),
   (1519, 1522), (1568, 1610), (1632, 1641), (1646, 1647), (1649, 1747),
   (1749, 1749), (1765, 1766), (1774, 1788), (1791, 1791), (1808, 1808),
   (1810, 1839), (1869, 1957), (1969, 1969), (1984, 2026), (2036, 2037),
   (2042, 2042), (2048, 2069), (2074, 2074), (2084, 2084), (2088, 2088),
   (2112, 2136), (2144, 2154), (2160, 2183), (2185, 2190), (2208, 2249),
   (2308, 2361), (2365, 2365), (2384, 2384), (2392, 2401), (2406, 2415),
   (2417, 2432), (2437, 2444), (2447, 2448), (2451, 2472), (2474, 2480),
   (2482, 2482), (2486, 2489), (2493, 2493), (2510, 2510), (2524, 2525),
   (2527, 2529), (2534, 2545), (2548, 2553), (2556, 2556), (2565, 2570),
   (2575, 2576), (2579, 2600), (2602, 2608), (2610, 2611), (2613, 2614),
   (2616, 2617), (2649, 2652), (2654, 2654), (2662, 2671), (2674, 2676),
   (2693, 2701), (2703, 2705), (2707, 2728), (2730, 2736), (2738, 2739),
   (2741, 2745), (2749, 2749), (2768, 2768), (2784, 2785), (2790, 2799),
   (2809, 2809), (2821, 2828), (2831, 2832), (2835, 2856), (2858, 2864),
   (2866, 2867), (2869, 2873), (2877, 2877), (2908, 2909), (2911, 2913),
   (2918, 2927), (2929, 2935), (2947, 2947), (2949, 2954), (2958, 2960),
   (2962, 2965), (2969, 2970), (2972, 2972), (2974, 2975), (2979, 2980),
   (2984, 2986), (2990, 3001), (3024, 3024), (3046, 3058), (3077, 3084),
   (3086, 3088), (3090, 3112), (3114, 3129), (3133, 3133), (3160, 3162),
   (3165, 3165), (3168, 3169), (3174, 3183), (3192, 3198), (3200, 3200),
   (3205, 3212), (3214, 3216), (3218, 3240), (3242, 3251), (3253, 3257),
   (3261, 3261), (3293, 3294), (3296, 3297), (3302, 3311), (3313, 3314),
   (3332, 3340), (3342, 3344), (3346, 3386), (3389, 3389), (3406, 3406),
   (3412, 3414), (3416, 3425), (3430, 3448), (3450, 3455), (3461, 3478),
   (3482, 3505), (3507, 3515), (3517, 3517), (3520, 3526), (3558, 3567),
   (3585, 3632), (3634, 3635), (3648, 3654), (3664, 3673), (3713, 3714),
   (3716, 3716), (3718, 3722), (3724, 3747), (3749, 3749), (3751, 3760),
   (3762, 3763), (3773, 3773), (3776, 3780), (3782, 3782), (3792, 3801),
   (3804, 3807), (3840, 3840), (3872, 3891), (3904, 3911), (3913, 3948),
   (3976, 3980), (4096, 4138), (4159, 4169), (4176, 4181), (4186, 4189),
   (4193, 4193), (4197, 4198), (4206, 4208), (4213, 4225), (4238, 4238),
   (4240, 4249), (4256, 4293), (4295, 4295), (4301, 4301), (4304, 4346),
   (4348, 4680), (4682, 4685), (4688, 4694), (4696, 4696), (4698, 4701),
   (4704, 4744), (4746, 4749), (4752, 4784), (4786, 4789), (4792, 4798),
   (4800, 4800), (4802, 4805), (4808, 4822), (4824, 4880), (4882, 4885),
   (4888, 4954), (4969, 4988), (4992, 5007), (5024, 5109), (5112, 5117),
   (5121, 5740), (5743, 5759), (5761, 5786), (5792, 5866), (5870, 5880),
   (5888, 5905), (5919, 5937), (5952, 5969), (5984, 5996), (5998, 6000),
   (6016, 6067), (6103, 6103), (6108, 6108), (6112, 6121), (6128, 6137),
   (6160, 6169), (6176, 6264), (6272, 6276), (6279, 6312), (6314, 6314),
   (6320, 6389), (6400, 6430), (6470, 6509), (6512, 6516), (6528, 6571),
   (6576, 6601), (6608, 6618), (6656, 6678), (6688, 6740), (6784, 6793),
   (6800, 6809), (6823, 6823), (6917, 6963), (6981, 6988), (6992, 7001),
   (7043, 7072), (7086, 7141), (7168, 7203), (7232, 7241), (7245, 7293),
   (7296, 7304), (7312, 7354), (7357, 7359), (7401, 7404), (7406, 7411),
   (7413, 7414), (7418, 7418), (7424, 7615), (7680, 7957), (7960, 7965),
   (7968, 8005), (8008, 8013), (8016, 8023), (8025, 8025), (8027, 8027),
   (8029, 8029), (8031, 8061), (8064, 8116), (8118, 8124), (8126, 8126),
   (8130, 8132), (8134, 8140), (8144, 8147), (8150, 8155), (8160, 8172),
   (8178, 8180), (8182, 8188), (8304, 8305), (8308, 8313), (8319, 8329),
   (8336, 8348), (8450, 8450), (8455, 8455), (8458, 8467), (8469, 8469),
   (8473, 8477), (8484, 8484), (8486, 8486), (8488, 8488), (8490, 8493),
   (8495, 8505), (8508, 8511), (8517, 8521), (8526, 8526), (8528, 8585),
   (9312, 9371), (9450, 9471), (10102, 10131), (11264, 11492), (11499, 11502),
   (11506, 11507), (11517, 11517), (11520, 11557), (11559, 11559), (11565, 11565),
   (11568, 11623), (11631, 11631), (11648, 11670), (11680, 11686), (11688, 11694),
   (11696, 11702), (11704, 11710), (11712, 11718), (11720, 11726), (11728, 11734),
   (11736, 11742), (11823, 11823), (12293, 12295), (12321, 12329), (12337, 12341),
   (12344, 12348), (12353, 12438), (12445, 12447), (12449, 12538), (12540, 12543),
   (12549, 12591), (12593, 12686), (12690, 12693), (12704, 12735), (12784, 12799),
   (12832, 12841), (12872, 12879), (12881, 12895), (12928, 12937), (12977, 12991),
   (13312, 19903), (19968, 42124), (42192, 42237), (42240, 42508), (42512, 42539),
   (42560, 42606), (42623, 42653), (42656, 42735), (42775, 42783), (42786, 42888),
   (42891, 42954), (42960, 42961), (42963, 42963), (42965, 42969), (42994, 43009),
   (43011, 43013), (43015, 43018), (43020, 43042), (43056, 43061), (43072, 43123),
   (43138, 43187), (43216, 43225), (43250, 43255), (43259, 43259), (43261, 43262),
   (43264, 43301), (43312, 43334), (43360, 43388), (43396, 43442), (43471, 43481),
   (43488, 43492), (43494, 43518), (43520, 43560), (43584, 43586), (43588, 43595),
   (43600, 43609), (43616, 43638), (43642, 43642), (43646, 43695), (43697, 43697),
   (43701, 43702), (43705, 43709), (43712, 43712), (43714, 43714), (43739, 43741),
   (43744, 43754), (43762, 43764), (43777, 43782), (43785, 43790), (43793, 43798),
   (43808, 43814), (43816, 43822), (43824, 43866), (43868, 43881), (43888, 44002),
   (44016, 44025), (44032, 55203), (55216, 55238), (55243, 55291), (63744, 64109),
   (64112, 64217), (64256, 64262), (64275, 64279), (64285, 64285), (64287, 64296),
   (64298, 64310), (64312, 64316), (64318, 64318), (64320, 64321), (64323, 64324),
   (64326, 64433), (64467, 64829), (64848, 64911), (64914, 64967), (65008, 65019),
   (65136, 65140), (65142, 65276), (65296, 65305), (65313, 65338), (65345, 65370),
   (65382, 65470), (65474, 65479), (65482, 65487), (65490, 65495), (65498, 65500),
   (65536, 65547), (65549, 65574), (65576, 65594), (65596, 65597), (65599, 65613),
   (65616, 65629), (65664, 65786), (65799, 65843), (65856, 65912), (65930, 65931),
   (66176, 66204), (66208, 66256), (66273, 66299), (66304, 66339), (66349, 66378),
   (66384, 66421), (66432, 66461), (66464, 66499), (66504, 66511), (66513, 66517),
   (66560, 66717), (66720, 66729), (66736, 66771), (66776, 66811), (66816, 66855),
   (66864, 66915), (66928, 66938), (66940, 66954), (66956, 66962), (66964, 66965),
   (66967, 66977), (66979, 66993), (66995, 67001), (67003, 67004), (67072, 67382),
   (67392, 67413), (67424, 67431), (67456, 67461), (67463, 67504), (67506, 67514),
   (67584, 67589), (67592, 67592), (67594, 67637), (67639, 67640), (67644, 67644),
   (67647, 67669), (67672, 67702), (67705, 67742), (67751, 67759), (67808, 67826),
   (67828, 67829), (67835, 67867), (67872, 67897), (67968, 68023), (68028, 68047),
   (68050, 68096), (68112, 68115), (68117, 68119), (68121, 68149), (68160, 68168),
   (68192, 68222), (68224, 68255), (68288, 68295), (68297, 68324), (68331, 68335),
   (68352, 68405), (68416, 68437), (68440, 68466), (68472, 68497), (68521, 68527),
   (68608, 68680), (68736, 68786), (68800, 68850), (68858, 68899), (68912, 68921),
   (69216, 69246), (69248, 69289), (69296, 69297), (69376, 69415), (69424, 69445),
   (69457, 69460), (69488, 69505), (69552, 69579), (69600, 69622), (69635, 69687),
   (69714, 69743), (69745, 69746), (69749, 69749), (69763, 69807), (69840, 69864),
   (69872, 69881), (69891, 69926), (69942, 69951), (69956, 69956), (69959, 69959),
   (69968, 70002), (70006, 70006), (70019, 70066), (70081, 70084), (70096, 70106),
   (70108, 70108), (70113, 70132), (70144, 70161), (70163, 70187), (70272, 70278),
   (70280, 70280), (70282, 70285), (70287, 70301), (70303, 70312), (70320, 70366),
   (70384, 70393), (70405, 70412), (70415, 70416), (70419, 70440), (70442, 70448),
   (70450, 70451), (70453, 70457), (70461, 70461), (70480, 70480), (70493, 70497),
   (70656, 70708), (70727, 70730), (70736, 70745), (70751, 70753), (70784, 70831),
   (70852, 70853), (70855, 70855), (70864, 70873), (71040, 71086), (71128, 71131),
   (71168, 71215), (71236, 71236), (71248, 71257), (71296, 71338), (71352, 71352),
   (71360, 71369), (71424, 71450), (71472, 71483), (71488, 71494), (71680, 71723),
   (71840, 71922), (71935, 71942), (71945, 71945), (71948, 71955), (71957, 71958),
   (71960, 71983), (71999, 71999), (72001, 72001), (72016, 72025), (72096, 72103),
   (72106, 72144), (72161, 72161), (72163, 72163), (72192, 72192), (72203, 72242),
   (72250, 72250), (72272, 72272), (72284, 72329), (72349, 72349), (72368, 72440),
   (72704, 72712), (72714, 72750), (72768, 72768), (72784, 72812), (72818, 72847),
   (72960, 72966), (72968, 72969), (72971, 73008), (73030, 73030), (73040, 73049),
   (73056, 73061), (73063, 73064), (73066, 73097), (73112, 73112), (73120, 73129),
   (73440, 73458), (73648, 73648), (73664, 73684), (73728, 74649), (74752, 74862),
   (74880, 75075), (77712, 77808), (77824, 78894), (82944, 83526), (92160, 92728),
   (92736, 92766), (92768, 92777), (92784, 92862), (92864, 92873), (92880, 92909),
   (92928, 92975), (92992, 92995), (93008, 93017), (93019, 93025), (93027, 93047),
   (93053, 93071), (93760, 93846), (93952, 94026), (94032, 94032), (94099, 94111),
   (94176, 94177), (94179, 94179), (94208, 100343), (100352, 101589), (101632, 101640),
   (110576, 110579), (110581, 110587), (110589, 110590), (110592, 110882), (110928, 110930),
   (110948, 110951), (110960, 111355), (113664, 113770), (113776, 113788), (113792, 113800),
   (113808, 113817), (119520, 119539), (119648, 119672), (119808, 119892), (119894, 119964),
   (119966, 119967), (119970, 119970), (119973, 119974), (119977, 119980), (119982, 119993),
   (119995, 119995), (119997, 120003), (120005, 120069), (120071, 120074), (120077, 120084),
   (120086, 120092), (120094, 120121), (120123, 120126), (120128, 120132), (120134, 120134),
   (120138, 120144), (120146, 120485), (120488, 120512), (120514, 120538), (120540, 120570),
   (120572, 120596), (120598, 120628), (120630, 120654), (120656, 120686), (120688, 120712),
   (120714, 120744), (120746, 120770), (120772, 120779), (120782, 120831), (122624, 122654),
   (123136, 123180), (123191, 123197), (123200, 123209), (123214, 123214), (123536, 123565),
   (123584, 123627), (123632, 123641), (124896, 124902), (124904, 124907), (124909, 124910),
   (124912, 124926), (124928, 125124), (125127, 125135), (125184, 125251), (125259, 125259),
   (125264, 125273), (126065, 126123), (126125, 126127), (126129, 126132), (126209, 126253),
   (126255, 126269), (126464, 126467), (126469, 126495), (126497, 126498), (126500, 126500),
   (126503, 126503), (126505, 126514), (126516, 126519), (126521, 126521), (126523, 126523),
   (126530, 126530), (126535, 126535), (126537, 126537), (126539, 126539), (126541, 126543),
   (126545, 126546), (126548, 126548), (126551, 126551), (126553, 126553), (126555, 126555),
   (126557, 126557), (126559, 126559), (126561, 126562), (126564, 126564), (126567, 126570),
   (126572, 126578), (126580, 126583), (126585, 126588), (126590, 126590), (126592, 126601),
   (126603, 126619), (126625, 126627), (126629, 126633), (126635, 126651), (127232, 127244),
   (130032, 130041), (131072, 173791), (173824, 177976), (177984, 178205), (178208, 183969),
   (183984, 191456), (194560, 195101), (196608, 201546)]

/-- Python's Unicode-aware `c.isalnum()`: membership in one of the
alphanumeric code-point ranges. -/
def pyIsAlnum (c : Char) : Bool :=
  pyAlnumRanges.any (fun r => r.1 ≤ c.toNat && c.toNat ≤ r.2)

/-- A character kept by the sanitizer:
`c.isalnum() or c in (' ', '-', '_')`. -/
def allowedChar (c : Char) : Bool :=
  pyIsAlnum c || c == ' ' || c == '-' || c == '_'

/-- Python's `str.strip()` with no argument: remove leading and trailing
whitespace. -/
def pyStrip (s : String) : String :=
  String.mk
    (((s.data.dropWhile Char.isWhitespace).reverse.dropWhile
        Char.isWhitespace).reverse)

/-- The sanitized project name:
`"".join(c for c in name if c.isalnum() or c in (' ', '-', '_')).strip()`.
Note the trailing `.strip()`: surviving leading/trailing whitespace is
removed after filtering. -/
def sanitizeName (name : String) : String :=
  pyStrip (String.mk (name.data.filter allowedChar))

/-- Python's `str.endswith(suffix)`, modelled on the character list
(Lean's `String.endsWith` is definitionally opaque well-founded
recursion). -/
def strEndsWith (s suffix : String) : Bool :=
  suffix.data.isSuffixOf s.data

/-- The data directory: filenames mapped to file contents. A content of
`none` stands for a file whose bytes are not valid JSON (`json.load`
raises); `some v` is a file decoding to `v`. -/
abbrev Store : Type := List (String × Option JVal)

/-- Checking `os.path.exists` / opening a file of the data directory. -/
def storeFind (store : Store) (filename : String) : Option (Option JVal) :=
  (List.find? (fun p => p.1 == filename) store).map Prod.snd

/-- Writing a file: overwrite if present, else create. -/
def storeWrite (store : Store) (filename : String) (v : JVal) : Store :=
  if (store : List (String × Option JVal)).any (fun p => p.1 == filename) then
    (store : List (String × Option JVal)).map
      (fun p => if p.1 == filename then (filename, some v) else p)
  else
    (store : List (String × Option JVal)) ++ [(filename, some v)]

/-- Removal by `os.remove`. -/
def storeRemove (store : Store) (filename : String) : Store :=
  (store : List (String × Option JVal)).filter (fun p => !(p.1 == filename))

/-- An HTTP response: a payload with status 200, or a bare error status
(400 validation, 404 not found, 500 internal). -/
inductive Resp (α : Type) where
  | ok (a : α)
  | err (code : Nat)
deriving Repr

/-- Handler `save_project` (POST `/api/save-project`): validate that the body is
truthy and contains `projectName`, sanitize the name, derive the filename
from it and the current time, stamp `savedAt`, write the record, and
return the filename. Returns the updated store and the response.
Dynamic-type errors (non-dict body passing validation, non-string
`projectName`) take the 500 branch. -/
def save_project (store : Store) (data : JVal) (now : PyDateTime) :
    Store × Resp String :=
  if !pyTruthy data then (store, .err 400)
  else
    match pyContainsKey data "projectName" with
    | none => (store, .err 500)
    | some false => (store, .err 400)
    | some true =>
      match data with
      | .obj fields =>
        match jGet fields "projectName" with
        | some (.str name) =>
          let project_name := sanitizeName name
          let filename := project_name ++ "_" ++ strftimeCompact now ++ ".json"
          let record := JVal.obj (objSet fields "savedAt" (.str (isoformat now)))
          (storeWrite store filename record, .ok filename)
        | _ => (store, .err 500)
      | _ => (store, .err 500)

/-- Handler `get_project` (GET `/api/projects/<filename>`): 404 when the file does
not exist, 500 when its contents fail to decode, otherwise the decoded
record. -/
def get_project (store : Store) (filename : String) : Resp JVal :=
  match storeFind store filename with
  | none => .err 404
  | some none => .err 500
  | some (some v) => .ok v

/-- Handler `delete_project` (DELETE `/api/delete/<filename>`): 404 when the file
does not exist, otherwise remove it. Returns the updated store and the
response. -/
def delete_project (store : Store) (filename : String) :
    Store × Resp Unit :=
  match storeFind store filename with
  | none => (store, .err 404)
  | some _ => (storeRemove store filename, .ok ())

/-! ### Listing -/

/-! ### Spreadsheet export -/

/-- Python f-string conversion of `row.get('id', '')` when building the
timer key. Exact on scalars; the `repr` of containers is not modelled
(no property below concerns container-valued ids). -/
def pyFStr : JVal → Option String
  | .str s => some s
  | .num n => some (toString n)
  | .bool b => some (if b then "True" else "False")
  | .null => some "None"
  | _ => none

/-- One timer cell of the exported sheet:
`format_time(data.get('timerData', {}).get(f"{row.get('id','')}-{i}", {}).get('time', 0))`,
with `none` on any dynamic-type error (surfacing as HTTP 500). -/
def timerCell (fields ro : List (String × JVal)) (i : Nat) : Option JVal :=
  match pyFStr (jGetD ro "id" (.str "")) with
  | none => none
  | some rid =>
    let timer_id := rid ++ "-" ++ toString i
    match asObj (jGetD fields "timerData" (.obj [])) with
    | none => none
    | some td =>
      match asObj (jGetD td timer_id (.obj [])) with
      | none => none
      | some entry =>
        match asInt (jGetD entry "time" (.num 0)) with
        | none => none
        | some ms => some (.str (format_time ms))

/-- The inner `for col_idx in range(len(...))` loop, over an explicit list
of column indices. -/
def timerCells (fields ro : List (String × JVal)) :
    List Nat → Option (List JVal)
  | [] => some []
  | i :: is =>
    match timerCell fields ro i with
    | none => none
    | some c =>
      match timerCells fields ro is with
      | none => none
      | some cs => some (c :: cs)

/-- The outer `for row in data.get('rows', [])` loop: each row must be a
dict (`row.get`); its cells are the task name (default "Unnamed Task")
followed by one timer cell per column index. -/
def exportRows (fields : List (String × JVal)) (numCols : Nat) :
    List JVal → Option (List (List JVal))
  | [] => some []
  | rv :: rest =>
    match asObj rv with
    | none => none
    | some ro =>
      match timerCells fields ro (List.range numCols) with
      | none => none
      | some cells =>
        match exportRows fields numCols rest with
        | none => none
        | some rs =>
          some ((jGetD ro "name" (.str "Unnamed Task") :: cells) :: rs)

/-- The sheet built by `export_project` from a decoded record: a header
row `['Task Name'] + data.get('columnNames', [])` followed by one row per
entry of `data.get('rows', [])`. The record must be a dict, and
`columnNames`/`rows` must (when present) be lists — otherwise the Python
code raises and the request returns 500. Column-width auto-adjustment
does not alter any cell value and is not modelled. -/
def export_sheet (data : JVal) : Option (List (List JVal)) :=
  match asObj data with
  | none => none
  | some fields =>
    match asArr (jGetD fields "columnNames" (.arr [])) with
    | none => none
    | some cols =>
      match asArr (jGetD fields "rows" (.arr [])) with
      | none => none
      | some rws =>
        match exportRows fields cols.length rws with
        | none => none
        | some dataRows => some ((JVal.str "Task Name" :: cols) :: dataRows)

/-- Handler `export_project` (GET `/api/export/<filename>`): 404 when the file
does not exist, 500 on decode or sheet-building failure, otherwise the
sheet (the binary xlsx encoding of it is not modelled). -/
def export_project (store : Store) (filename : String) :
    Resp (List (List JVal)) :=
  match storeFind store filename with
  | none => .err 404
  | some none => .err 500
  | some (some v) =>
    match export_sheet v with
    | none => .err 500
    | some sheet => .ok sheet

/-! ### Listing -/

/-- One entry of the listing returned by `list_projects`. -/
structure Summary where
  filename : String
  projectName : JVal
  savedAt : JVal
  columns : Nat
  rows : Nat
deriving Repr

/-- The summary built for one decoded file, when no exception occurs:
the record must be a dict and `len` must apply to the (defaulted)
`columnNames` and `rows` values. -/
def summarize (filename : String) (v : JVal) : Option Summary := do
  let fields ← asObj v
  let columns ← pyLen (jGetD fields "columnNames" (.arr []))
  let rows ← pyLen (jGetD fields "rows" (.arr []))
  pure { filename := filename,
         projectName := jGetD fields "projectName" (.str "Unnamed Project"),
         savedAt := jGetD fields "savedAt" (.str ""),
         columns := columns,
         rows := rows }

/-- Handler `list_projects` (GET `/api/projects`): iterate over the data
directory, skip files not ending in `.json`, decode and summarize each
remaining file; any decode or summarize failure aborts the whole request
(500, modelled as `none`). -/
def list_projects : Store → Option (List Summary)
  | [] => some []
  | (filename, content) :: rest =>
    if strEndsWith filename ".json" then
      match content with
      | none => none
      | some v =>
        match summarize filename v with
        | none => none
        | some s => (list_projects rest).map (fun l => s :: l)
    else list_projects rest

/-! ### Spec-side definitions (written from the spec's words, for
comparison with the embedded code) -/

/-- The filename pattern claimed by the spec's interface section:
`{sanitizedName}_{YYYYMMDDHHMMSS}.json`, where the sanitized name is the
project name restricted to alphanumerics, spaces, hyphens and
underscores, and the timestamp is fourteen contiguous digits. -/
def claimedFilenameSpec (name : String) (t : PyDateTime) : String :=
  String.mk (name.data.filter allowedChar) ++ "_" ++
    pad4N t.year ++ pad2N t.month ++ pad2N t.day ++
    pad2N t.hour ++ pad2N t.minute ++ pad2N t.second ++ ".json"

/-- A data-directory entry as the listing claims expect it: a `.json`
file decoding to an object whose `columnNames` and `rows` fields (when
present) are lists. -/
def goodFile : String × Option JVal → Bool
  | (fname, some (.obj fs)) =>
    strEndsWith fname ".json" &&
    (match jGetD fs "columnNames" (.arr []) with
     | .arr _ => true | _ => false) &&
    (match jGetD fs "rows" (.arr []) with
     | .arr _ => true | _ => false)
  | _ => false

/-- The per-file summary the spec describes: filename, project name
defaulting to "Unnamed Project", save timestamp, and the lengths of
`columnNames` and `rows`. (Junk values on files `goodFile` rejects.) -/
def summarySpec : String × Option JVal → Summary
  | (fname, some (.obj fs)) =>
    { filename := fname
      projectName := jGetD fs "projectName" (.str "Unnamed Project")
      savedAt := jGetD fs "savedAt" (.str "")
      columns := ((asArr (jGetD fs "columnNames" (.arr []))).getD []).length
      rows := ((asArr (jGetD fs "rows" (.arr []))).getD []).length }
  | (fname, _) =>
    { filename := fname, projectName := .null, savedAt := .null,
      columns := 0, rows := 0 }

/-- The spec's description of one timer value: look up
`"{row.id}-{i}"` in `timerData`, extract `time`, defaulting to 0
milliseconds when the key or the field is absent. -/
def lookupTimeSpec (fields ro : List (String × JVal)) (i : Nat) : Int :=
  let key := ((pyFStr (jGetD ro "id" (.str ""))).getD "") ++ "-" ++ toString i
  let td := (asObj (jGetD fields "timerData" (.obj []))).getD []
  let entry := (asObj (jGetD td key (.obj []))).getD []
  (asInt (jGetD entry "time" (.num 0))).getD 0

/-- The spec's description of one exported data row: the task name
(default "Unnamed Task") followed by the formatted duration for each
column index. -/
def exportRowSpec (fields : List (String × JVal)) (numCols : Nat)
    (rv : JVal) : List JVal :=
  let ro := (asObj rv).getD []
  jGetD ro "name" (.str "Unnamed Task") ::
    (List.range numCols).map
      (fun i => .str (format_time (lookupTimeSpec fields ro i)))


/-- A well-formed `timerData` field: absent, or a dict whose entries are
dicts whose `time` field (when present) is numeric — the shapes on which
the export loop completes without raising. -/
def timerDataOk (fields : List (String × JVal)) : Prop :=
  ∃ td, asObj (jGetD fields "timerData" (.obj [])) = some td ∧
    ∀ p ∈ td, ∃ e, p.2 = JVal.obj e ∧
      ∀ t, jGet e "time" = some t → ∃ n, asInt t = some n

/-- A well-formed row entry: a dict whose `id` (defaulting to `""`) is a
scalar the f-string renders. -/
def rowOk (rv : JVal) : Prop :=
  ∃ ro, rv = JVal.obj ro ∧
    ∃ s, pyFStr (jGetD ro "id" (.str "")) = some s

/-! ### Association-list lemmas -/

/-- On nonnegative inputs, `format_time` computes exactly the spec's
formula with natural-number `div`/`mod`. -/
theorem format_time_eq_spec (ms : Nat) :
    format_time (ms : Int) = formatDurationSpec ms := by
  unfold format_time formatDurationSpec
  rw [show ((60000 : Int)) = ((60000 : Nat) : Int) from rfl,
      show ((1000 : Int)) = ((1000 : Nat) : Int) from rfl,
      show ((10 : Int)) = ((10 : Nat) : Int) from rfl,
      ← Int.ofNat_fmod, ← Int.ofNat_fmod,
      ← Int.ofNat_fdiv, ← Int.ofNat_fdiv, ← Int.ofNat_fdiv]
  rfl


/-- A key that `jGet` finds is seen by `List.any`. -/
theorem any_key_of_jGet_some (fs : List (String × JVal)) (k : String)
    (v : JVal) (h : jGet fs k = some v) :
    fs.any (fun p => p.1 == k) = true := by
  induction fs with
  | nil => simp [jGet] at h
  | cons p rest ih =>
    simp only [jGet, List.find?_cons] at h
    simp only [List.any_cons]
    cases hpk : (p.1 == k) with
    | true => simp
    | false =>
      simp only [hpk] at h
      simp only [Bool.false_or]
      exact ih h

/-- A key that `jGet` misses is missed by `List.any`. -/
theorem any_key_of_jGet_none (fs : List (String × JVal)) (k : String)
    (h : jGet fs k = none) :
    fs.any (fun p => p.1 == k) = false := by
  induction fs with
  | nil => simp
  | cons p rest ih =>
    simp only [jGet, List.find?_cons] at h
    simp only [List.any_cons]
    cases hpk : (p.1 == k) with
    | true => simp only [hpk] at h; simp at h
    | false =>
      simp only [hpk] at h
      simp only [Bool.false_or]
      exact ih h

/-- Appending a fresh binding to an association list none of whose keys
match makes lookup find it. -/
theorem alist_find_append_single {β : Type} (fs : List (String × β))
    (k : String) (b : β) (h : fs.any (fun p => p.1 == k) = false) :
    ((fs ++ [(k, b)]).find? (fun p => p.1 == k)).map Prod.snd = some b := by
  induction fs with
  | nil => simp
  | cons p rest ih =>
    simp only [List.any_cons, Bool.or_eq_false_iff] at h
    simp only [List.cons_append, List.find?_cons, h.1]
    exact ih h.2

/-- Replacing every binding of a present key makes lookup return the new
value. -/
theorem alist_find_replace {β : Type} (fs : List (String × β))
    (k : String) (b : β) (h : fs.any (fun p => p.1 == k) = true) :
    ((fs.map (fun p => if p.1 == k then (k, b) else p)).find?
        (fun p => p.1 == k)).map Prod.snd = some b := by
  induction fs with
  | nil => simp at h
  | cons p rest ih =>
    simp only [List.any_cons] at h
    simp only [List.map_cons]
    cases hpk : (p.1 == k) with
    | true => simp [hpk]
    | false =>
      simp only [hpk, Bool.false_or] at h
      rw [show (if false = true then (k, b) else p) = p from rfl,
          List.find?_cons, hpk]
      exact ih h

/-- Appending a binding for a different key does not change a lookup. -/
theorem alist_find_append_ne {β : Type} (fs : List (String × β))
    (k k2 : String) (b : β) (hne : k2 ≠ k) :
    (fs ++ [(k, b)]).find? (fun p => p.1 == k2) =
      fs.find? (fun p => p.1 == k2) := by
  induction fs with
  | nil =>
    simp only [List.nil_append, List.find?_cons,
      show (k == k2) = false from beq_eq_false_iff_ne.mpr (fun h => hne h.symm)]
  | cons p rest ih =>
    simp only [List.cons_append, List.find?_cons]
    cases hpk : (p.1 == k2) with
    | true => rfl
    | false => exact ih

/-- Replacing the bindings of one key does not change lookups of another
key (replacement keeps the key of every binding). -/
theorem alist_find_replace_ne {β : Type} (fs : List (String × β))
    (k k2 : String) (b : β) (hne : k2 ≠ k) :
    ((fs.map (fun p => if p.1 == k then (k, b) else p)).find?
        (fun p => p.1 == k2)).map Prod.snd =
      (fs.find? (fun p => p.1 == k2)).map Prod.snd := by
  induction fs with
  | nil => rfl
  | cons p rest ih =>
    simp only [List.map_cons, List.find?_cons]
    cases hpk : (p.1 == k) with
    | true =>
      have hp2 : (p.1 == k2) = false := by
        have : p.1 = k := by simpa using hpk
        subst this
        exact beq_eq_false_iff_ne.mpr (fun h => hne h.symm)
      rw [show (if true = true then (k, b) else p) = (k, b) from rfl]
      rw [show ((k, b).1 == k2) = false from
        beq_eq_false_iff_ne.mpr (fun h => hne h.symm)]
      rw [hp2]
      exact ih
    | false =>
      rw [show (if false = true then (k, b) else p) = p from rfl]
      cases hp2 : (p.1 == k2) with
      | true => rfl
      | false => exact ih

/-- After filtering a key out of an association list, lookup misses it. -/
theorem alist_find_remove {β : Type} (fs : List (String × β))
    (k : String) :
    (fs.filter (fun p => !(p.1 == k))).find? (fun p => p.1 == k) = none := by
  induction fs with
  | nil => rfl
  | cons p rest ih =>
    simp only [List.filter_cons]
    cases hpk : (p.1 == k) with
    | true => simp [hpk, ih]
    | false => simp [hpk, List.find?_cons, ih]

/-- Setting `d[k] = v` then reading `d.get(k)` yields `v`. -/
theorem jGet_objSet_self (fs : List (String × JVal)) (k : String)
    (v : JVal) : jGet (objSet fs k v) k = some v := by
  unfold objSet jGet
  split
  · rename_i h
    exact alist_find_replace fs k v h
  · rename_i h
    exact alist_find_append_single fs k v
      (by simp only [Bool.not_eq_true] at h; exact h)

/-- Setting `d[k] = v` leaves every other key's value unchanged. -/
theorem jGet_objSet_ne (fs : List (String × JVal)) (k k2 : String)
    (v : JVal) (hne : k2 ≠ k) : jGet (objSet fs k v) k2 = jGet fs k2 := by
  unfold objSet jGet
  split
  · exact alist_find_replace_ne fs k k2 v hne
  · rw [alist_find_append_ne fs k k2 v hne]

/-- Reading back the file just written yields the written record. -/
theorem storeFind_storeWrite_self (store : Store) (fn : String)
    (v : JVal) : storeFind (storeWrite store fn v) fn = some (some v) := by
  unfold storeWrite storeFind
  split
  · rename_i h
    exact alist_find_replace store fn (some v) h
  · rename_i h
    exact alist_find_append_single store fn (some v)
      (by simp only [Bool.not_eq_true] at h; exact h)

/-- A removed file is gone. -/
theorem storeFind_storeRemove_self (store : Store) (fn : String) :
    storeFind (storeRemove store fn) fn = none := by
  unfold storeRemove storeFind
  rw [alist_find_remove]
  rfl

/-- The successful save path: with a truthy record carrying a string
`projectName`, `save_project` writes the stamped record under the derived
filename and returns that filename. -/
theorem save_project_obj_some (store : Store)
    (fields : List (String × JVal)) (now : PyDateTime) (name : String)
    (hpn : jGet fields "projectName" = some (.str name)) :
    save_project store (.obj fields) now =
      (storeWrite store (sanitizeName name ++ "_" ++ strftimeCompact now ++ ".json")
        (JVal.obj (objSet fields "savedAt" (.str (isoformat now)))),
       .ok (sanitizeName name ++ "_" ++ strftimeCompact now ++ ".json")) := by
  have hne : fields ≠ [] := by
    intro h
    subst h
    simp [jGet] at hpn
  have hany : fields.any (fun p => p.1 == "projectName") = true :=
    any_key_of_jGet_some fields "projectName" (.str name) hpn
  unfold save_project
  rw [show pyTruthy (.obj fields) = true from by
        simp [pyTruthy, List.isEmpty_iff, hne],
      show pyContainsKey (.obj fields) "projectName" = some true from by
        simp [pyContainsKey, hany]]
  simp [hpn]

/-! ### Claims -/

/-- C2: for every nonnegative number of milliseconds, the duration
formatter returns `MM:SS.CC` with `MM = ms div 60000`,
`SS = (ms mod 60000) div 1000`, `CC = (ms mod 1000) div 10`, each
zero-padded to two digits; minutes are not capped at 59; and the spec's
three sample values are as stated. -/
theorem claim_C2_format_duration :
    (∀ ms : Nat, format_time (ms : Int) = formatDurationSpec ms) ∧
    format_time 0 = "00:00.00" ∧ format_time 65000 = "01:05.00" ∧
    format_time 61250 = "01:01.25" ∧ format_time 3600000 = "60:00.00" :=
  ⟨format_time_eq_spec, by decide, by decide, by decide, by decide⟩

/-- C4: saving a record that is empty or lacks `projectName` fails with
HTTP 400 and leaves the store unchanged. -/
theorem claim_C4_save_invalid (store : Store)
    (fields : List (String × JVal)) (now : PyDateTime)
    (h : jGet fields "projectName" = none) :
    save_project store (.obj fields) now = (store, .err 400) := by
  unfold save_project
  cases fields with
  | nil => rfl
  | cons p rest =>
    rw [show pyTruthy (.obj (p :: rest)) = true from rfl,
        show pyContainsKey (.obj (p :: rest)) "projectName" =
          some ((p :: rest).any (fun q => q.1 == "projectName")) from rfl,
        any_key_of_jGet_none _ _ h]
    rfl

/-- C4 witness: the empty record and a record without `projectName` are
both rejected with 400, leaving the (nonempty) store untouched. -/
theorem claim_C4_save_invalid_witness :
    save_project [("old.json", some (.num 1))] (.obj []) ⟨2024, 1, 2, 3, 4, 5⟩ =
      ([("old.json", some (.num 1))], .err 400) ∧
    save_project [("old.json", some (.num 1))]
        (.obj [("rows", .arr [])]) ⟨2024, 1, 2, 3, 4, 5⟩ =
      ([("old.json", some (.num 1))], .err 400) :=
  ⟨claim_C4_save_invalid _ _ _ rfl, claim_C4_save_invalid _ _ _ rfl⟩

/-- C5: `get_project` and `delete_project` return 404 on a filename with
no file (delete leaving the store unchanged); on an existing decodable
file `get_project` returns the full decoded record, and `delete_project`
removes the file permanently. -/
theorem claim_C5_get_delete_not_found (store : Store) (fn : String) :
    (storeFind store fn = none →
      get_project store fn = .err 404 ∧
      delete_project store fn = (store, .err 404)) ∧
    (∀ v : JVal, storeFind store fn = some (some v) →
      get_project store fn = .ok v) ∧
    (∀ c : Option JVal, storeFind store fn = some c →
      delete_project store fn = (storeRemove store fn, .ok ()) ∧
      storeFind (delete_project store fn).1 fn = none) := by
  refine ⟨fun h => ⟨?_, ?_⟩, fun v h => ?_, fun c h => ⟨?_, ?_⟩⟩ <;>
    simp [get_project, delete_project, h, storeFind_storeRemove_self]

/-- C5 witness: evaluated on a one-file store. -/
theorem claim_C5_witness :
    get_project [("a.json", some (.num 1))] "missing.json" = .err 404 ∧
    delete_project [("a.json", some (.num 1))] "missing.json" =
      ([("a.json", some (.num 1))], .err 404) ∧
    get_project [("a.json", some (.num 1))] "a.json" = .ok (.num 1) ∧
    delete_project [("a.json", some (.num 1))] "a.json" = ([], .ok ()) ∧
    storeFind (delete_project [("a.json", some (.num 1))] "a.json").1
      "a.json" = none := by
  have h1 := (claim_C5_get_delete_not_found
    [("a.json", some (.num 1))] "missing.json").1 rfl
  have h2 := (claim_C5_get_delete_not_found
    [("a.json", some (.num 1))] "a.json").2.1 (.num 1) rfl
  have h3 := (claim_C5_get_delete_not_found
    [("a.json", some (.num 1))] "a.json").2.2 (some (.num 1)) rfl
  exact ⟨h1.1, h1.2, h2, h3.1, h3.2⟩

/-- C1: saving a record with a (string) `projectName` succeeds, and
immediately reading the returned filename back yields the input record
with `savedAt` set to the server time; every key other than `savedAt`
is unchanged. -/
theorem claim_C1_save_get_roundtrip (store : Store)
    (fields : List (String × JVal)) (now : PyDateTime) (name : String)
    (hpn : jGet fields "projectName" = some (.str name)) :
    ∃ fn store₂,
      save_project store (.obj fields) now = (store₂, .ok fn) ∧
      get_project store₂ fn =
        .ok (.obj (objSet fields "savedAt" (.str (isoformat now)))) ∧
      jGet (objSet fields "savedAt" (.str (isoformat now))) "savedAt" =
        some (.str (isoformat now)) ∧
      (∀ k, k ≠ "savedAt" →
        jGet (objSet fields "savedAt" (.str (isoformat now))) k =
          jGet fields k) := by
  refine ⟨_, _, save_project_obj_some store fields now name hpn, ?_, ?_, ?_⟩
  · unfold get_project
    rw [storeFind_storeWrite_self]
  · exact jGet_objSet_self fields "savedAt" _
  · intro k hk
    exact jGet_objSet_ne fields "savedAt" k _ hk

/-- C1 witness: a concrete record round-trips with `savedAt` added. -/
theorem claim_C1_witness :
    ∃ fn store₂,
      save_project []
          (.obj [("projectName", .str "Demo"), ("rows", .arr [.num 3])])
          ⟨2024, 5, 6, 7, 8, 9⟩ = (store₂, .ok fn) ∧
      get_project store₂ fn =
        .ok (.obj (objSet [("projectName", .str "Demo"), ("rows", .arr [.num 3])]
          "savedAt" (.str (isoformat ⟨2024, 5, 6, 7, 8, 9⟩)))) ∧
      jGet (objSet [("projectName", .str "Demo"), ("rows", .arr [.num 3])]
          "savedAt" (.str (isoformat ⟨2024, 5, 6, 7, 8, 9⟩))) "savedAt" =
        some (.str (isoformat ⟨2024, 5, 6, 7, 8, 9⟩)) ∧
      (∀ k, k ≠ "savedAt" →
        jGet (objSet [("projectName", .str "Demo"), ("rows", .arr [.num 3])]
            "savedAt" (.str (isoformat ⟨2024, 5, 6, 7, 8, 9⟩))) k =
          jGet [("projectName", .str "Demo"), ("rows", .arr [.num 3])] k) :=
  claim_C1_save_get_roundtrip [] _ _ "Demo" rfl

/-- C7: the persisted record always carries `savedAt` equal to the
server's current time at write, for every input — including one whose
client already supplied a `savedAt` value (it is overwritten). -/
theorem claim_C7_savedAt_server_time (store : Store)
    (fields : List (String × JVal)) (now : PyDateTime) (name : String)
    (hpn : jGet fields "projectName" = some (.str name)) :
    ∃ fn store₂,
      save_project store (.obj fields) now = (store₂, .ok fn) ∧
      storeFind store₂ fn =
        some (some (.obj (objSet fields "savedAt" (.str (isoformat now))))) ∧
      jGet (objSet fields "savedAt" (.str (isoformat now))) "savedAt" =
        some (.str (isoformat now)) :=
  ⟨_, _, save_project_obj_some store fields now name hpn,
    storeFind_storeWrite_self _ _ _, jGet_objSet_self _ _ _⟩

/-- C7 witness: a client-supplied `savedAt` of `"1999"` is replaced by
the server timestamp in the stored record. -/
theorem claim_C7_witness :
    (∃ fn store₂,
      save_project []
          (.obj [("projectName", .str "P"), ("savedAt", .str "1999")])
          ⟨2024, 5, 6, 7, 8, 9⟩ = (store₂, .ok fn) ∧
      storeFind store₂ fn =
        some (some (.obj (objSet [("projectName", .str "P"), ("savedAt", .str "1999")]
          "savedAt" (.str (isoformat ⟨2024, 5, 6, 7, 8, 9⟩))))) ∧
      jGet (objSet [("projectName", .str "P"), ("savedAt", .str "1999")]
          "savedAt" (.str (isoformat ⟨2024, 5, 6, 7, 8, 9⟩))) "savedAt" =
        some (.str (isoformat ⟨2024, 5, 6, 7, 8, 9⟩))) ∧
    objSet [("projectName", .str "P"), ("savedAt", .str "1999")]
        "savedAt" (.str (isoformat ⟨2024, 5, 6, 7, 8, 9⟩)) =
      [("projectName", .str "P"), ("savedAt", .str "2024-05-06T07:08:09")] :=
  ⟨claim_C7_savedAt_server_time [] _ _ "P" rfl, rfl⟩

/-- C6 counterexample: the generated filename does not match the claimed
pattern `{sanitizedName}_{YYYYMMDDHHMMSS}.json`. Saving
`" My Project! "` at 2024-01-02 03:04:05 yields
`"My Project_20240102_030405.json"` — the timestamp has an underscore
between date and time, and the sanitized segment is additionally
stripped of leading/trailing whitespace — not the claimed
`" My Project _20240102030405.json"`. -/
theorem claim_C6_counterexample :
    (save_project [] (.obj [("projectName", .str " My Project! ")])
        ⟨2024, 1, 2, 3, 4, 5⟩).2 = .ok "My Project_20240102_030405.json" ∧
    "My Project_20240102_030405.json" ≠
      claimedFilenameSpec " My Project! " ⟨2024, 1, 2, 3, 4, 5⟩ := by
  constructor
  · rfl
  · decide

/-- C6 amended: for every successful save, the generated filename is
`{sanitizedName}_{YYYYMMDD_HHMMSS}.json`, where the sanitized name is
the input `projectName` restricted to alphanumerics, spaces, hyphens and
underscores and then stripped of leading/trailing whitespace, and the
timestamp (current time at second resolution) has an underscore between
its date and time halves. -/
theorem claim_C6_amended (store : Store) (fields : List (String × JVal))
    (now : PyDateTime) (name : String)
    (hpn : jGet fields "projectName" = some (.str name)) :
    (save_project store (.obj fields) now).2 =
      .ok (pyStrip (String.mk (name.data.filter allowedChar)) ++ "_" ++
        (pad4N now.year ++ pad2N now.month ++ pad2N now.day ++ "_" ++
          pad2N now.hour ++ pad2N now.minute ++ pad2N now.second) ++
        ".json") := by
  rw [save_project_obj_some store fields now name hpn]
  rfl

/-- C6 amended, witness: the concrete filename from the counterexample
input, and a non-ASCII name `"éé"` — kept whole by the Unicode-aware
sanitizer, so the filename is `"éé_20240102_030405.json"`. -/
theorem claim_C6_amended_witness :
    ((save_project [] (.obj [("projectName", .str " My Project! ")])
        ⟨2024, 1, 2, 3, 4, 5⟩).2 =
      .ok (pyStrip (String.mk (" My Project! ".data.filter allowedChar)) ++ "_" ++
        (pad4N 2024 ++ pad2N 1 ++ pad2N 2 ++ "_" ++
          pad2N 3 ++ pad2N 4 ++ pad2N 5) ++ ".json")) ∧
    ((save_project [] (.obj [("projectName", .str "éé")])
        ⟨2024, 1, 2, 3, 4, 5⟩).2 =
      .ok (pyStrip (String.mk ("éé".data.filter allowedChar)) ++ "_" ++
        (pad4N 2024 ++ pad2N 1 ++ pad2N 2 ++ "_" ++
          pad2N 3 ++ pad2N 4 ++ pad2N 5) ++ ".json")) ∧
    pyStrip (String.mk ("éé".data.filter allowedChar)) = "éé" :=
  ⟨claim_C6_amended [] _ _ " My Project! " rfl,
   claim_C6_amended [] _ _ "éé" rfl, rfl⟩

/-- C9: a present `projectName` whose characters are all outside the
allowed set still saves successfully — validation only checks presence —
and the filename's sanitized segment is empty, so the filename is `"_"`
followed by the timestamp. -/
theorem claim_C9_unsanitizable_name (store : Store)
    (fields : List (String × JVal)) (now : PyDateTime) (name : String)
    (hpn : jGet fields "projectName" = some (.str name))
    (hbad : ∀ c ∈ name.data, allowedChar c = false) :
    (save_project store (.obj fields) now).2 =
      .ok ("_" ++ strftimeCompact now ++ ".json") := by
  rw [save_project_obj_some store fields now name hpn]
  have hf : name.data.filter allowedChar = [] :=
    List.filter_eq_nil_iff.mpr (fun c hc => by simp [hbad c hc])
  simp only [sanitizeName, hf]
  rfl

/-- C9 witness: the name `"!!!"` (no allowed characters) saves with a
filename beginning in `"_"`. -/
theorem claim_C9_witness :
    (save_project [] (.obj [("projectName", .str "!!!")])
        ⟨2024, 1, 2, 3, 4, 5⟩).2 =
      .ok ("_" ++ strftimeCompact ⟨2024, 1, 2, 3, 4, 5⟩ ++ ".json") :=
  claim_C9_unsanitizable_name [] _ _ "!!!" rfl (by decide)

/-- C10: one `.json` file with undecodable contents makes the whole
listing fail with HTTP 500 (`none`), regardless of the other files. -/
theorem claim_C10_poisoned_listing (store : Store) (fn : String)
    (hmem : (fn, (none : Option JVal)) ∈ store)
    (hjson : strEndsWith fn ".json" = true) :
    list_projects store = none := by
  induction store with
  | nil => cases hmem
  | cons p rest ih =>
    obtain ⟨fname, content⟩ := p
    cases hmem with
    | head => simp [list_projects, hjson]
    | tail _ hmem2 =>
      have ihr := ih hmem2
      unfold list_projects
      split
      · cases content with
        | none => rfl
        | some v =>
          rw [ihr]
          cases hs : summarize fname v with
          | none => simp [hs]
          | some s => simp [hs]
      · exact ihr

/-- C10 witness: a store with one valid record and one undecodable
`.json` file lists as a 500 error. -/
theorem claim_C10_witness :
    list_projects
      [("ok.json", some (.obj [("projectName", .str "P")])),
       ("bad.json", none)] = none :=
  claim_C10_poisoned_listing _ "bad.json"
    (List.Mem.tail _ (List.Mem.head _)) rfl

/-- A good file decodes and summarizes exactly as the spec-side summary
describes. -/
theorem summarize_of_good (fname : String) (c : Option JVal)
    (h : goodFile (fname, c) = true) :
    ∃ v, c = some v ∧ strEndsWith fname ".json" = true ∧
      summarize fname v = some (summarySpec (fname, c)) := by
  cases c with
  | none => simp [goodFile] at h
  | some v =>
    cases v with
    | str s => simp [goodFile] at h
    | num n => simp [goodFile] at h
    | bool b => simp [goodFile] at h
    | null => simp [goodFile] at h
    | arr xs => simp [goodFile] at h
    | obj fs =>
      simp only [goodFile, Bool.and_eq_true] at h
      obtain ⟨⟨hj, hc⟩, hr⟩ := h
      obtain ⟨cs, hcs⟩ : ∃ cs, jGetD fs "columnNames" (.arr []) = .arr cs := by
        cases hx : jGetD fs "columnNames" (.arr []) <;> simp [hx] at hc ⊢
      obtain ⟨rs, hrs⟩ : ∃ rs, jGetD fs "rows" (.arr []) = .arr rs := by
        cases hx : jGetD fs "rows" (.arr []) <;> simp [hx] at hr ⊢
      refine ⟨_, rfl, hj, ?_⟩
      simp [summarize, summarySpec, asObj, pyLen, asArr, hcs, hrs]

/-- C8: when every file of the data directory is a `.json` file decoding
to a well-formed record, the listing returns exactly one summary per
file — filename, project name (default "Unnamed Project"), `savedAt`,
and the lengths of `columnNames` and `rows` — and its length is the
number of stored records. -/
theorem claim_C8_listing (store : Store)
    (h : ∀ p ∈ store, goodFile p = true) :
    list_projects store = some (store.map summarySpec) ∧
    (store.map summarySpec).length = store.length := by
  have main : ∀ st : Store, (∀ p ∈ st, goodFile p = true) →
      list_projects st = some (st.map summarySpec) := by
    intro st
    induction st with
    | nil => intro _; rfl
    | cons p rest ih =>
      intro h2
      obtain ⟨fname, c⟩ := p
      obtain ⟨v, hc, hjson, hsum⟩ :=
        summarize_of_good fname c (h2 _ (List.Mem.head _))
      subst hc
      unfold list_projects
      rw [if_pos hjson]
      simp only [hsum, ih (fun q hq => h2 q (List.Mem.tail _ hq))]
      rfl
  exact ⟨main store h, by simp⟩

/-- C8 witness: a two-record store lists as two summaries with the
described fields. -/
theorem claim_C8_witness :
    list_projects
      [("a.json", some (.obj [("projectName", .str "A"),
          ("columnNames", .arr [.str "c1", .str "c2"]),
          ("rows", .arr [.obj [("id", .str "r1")]])])),
       ("b.json", some (.obj []))] =
      some [⟨"a.json", .str "A", .str "", 2, 1⟩,
            ⟨"b.json", .str "Unnamed Project", .str "", 0, 0⟩] :=
  (claim_C8_listing _ (by
    intro p hp
    simp only [List.mem_cons, List.not_mem_nil, or_false] at hp
    rcases hp with rfl | rfl <;> rfl)).1

/-- With a well-formed `timerData` and a scalar row id, one timer cell is
exactly the formatted spec-side looked-up time. -/
theorem timerCell_eq (fields ro : List (String × JVal)) (i : Nat)
    (htd : timerDataOk fields) (rid : String)
    (hid : pyFStr (jGetD ro "id" (.str "")) = some rid) :
    timerCell fields ro i =
      some (.str (format_time (lookupTimeSpec fields ro i))) := by
  obtain ⟨td, htd1, htd2⟩ := htd
  unfold timerCell lookupTimeSpec
  rw [hid, htd1]
  simp only [Option.getD_some]
  cases hv : jGet td (rid ++ "-" ++ toString i) with
  | none =>
    simp only [jGetD, hv, Option.getD_none]
    simp [asObj, asInt, jGet]
  | some v =>
    obtain ⟨p, hp, hpv⟩ := Option.map_eq_some'.mp hv
    obtain ⟨e, he, ht⟩ := htd2 p (List.mem_of_find?_eq_some hp)
    have hv2 : jGet td (rid ++ "-" ++ toString i) = some (JVal.obj e) := by
      rw [hv, ← hpv, he]
    cases ht2 : jGet e "time" with
    | none =>
      simp only [jGetD, hv2, Option.getD_some, asObj, ht2, Option.getD_none]
      simp [asInt]
    | some t =>
      obtain ⟨n, hn⟩ := ht t ht2
      simp only [jGetD, hv2, Option.getD_some, asObj, ht2]
      simp [hn]

/-- The inner column loop completes and produces the spec-side cells, for
any list of column indices. -/
theorem timerCells_eq (fields ro : List (String × JVal))
    (htd : timerDataOk fields) (rid : String)
    (hid : pyFStr (jGetD ro "id" (.str "")) = some rid)
    (is : List Nat) :
    timerCells fields ro is =
      some (is.map (fun i => .str (format_time (lookupTimeSpec fields ro i)))) := by
  induction is with
  | nil => rfl
  | cons i rest ih =>
    unfold timerCells
    rw [timerCell_eq fields ro i htd rid hid, ih]
    rfl

/-- The outer row loop completes and produces the spec-side rows. -/
theorem exportRows_eq (fields : List (String × JVal)) (numCols : Nat)
    (htd : timerDataOk fields) (rws : List JVal)
    (hrows : ∀ rv ∈ rws, rowOk rv) :
    exportRows fields numCols rws =
      some (rws.map (exportRowSpec fields numCols)) := by
  induction rws with
  | nil => rfl
  | cons rv rest ih =>
    obtain ⟨ro, hro, s, hid⟩ := hrows rv (List.Mem.head _)
    subst hro
    unfold exportRows
    show (match timerCells fields ro (List.range numCols) with
      | none => none
      | some cells =>
        match exportRows fields numCols rest with
        | none => none
        | some rs =>
          some ((jGetD ro "name" (JVal.str "Unnamed Task") :: cells) :: rs)) =
      some (List.map (exportRowSpec fields numCols) (JVal.obj ro :: rest))
    rw [timerCells_eq fields ro htd s hid,
        ih (fun q hq => hrows q (List.Mem.tail _ hq))]
    rfl

/-- C3: for every well-formed stored record, the exported sheet's first
row is "Task Name" followed by the entries of `columnNames` in order, and
each subsequent row corresponds in order to an entry of `rows`: first the
row's `name` (default "Unnamed Task"), then for each column index `i` the
formatted duration of `timerData["{row.id}-{i}"].time`, defaulting to 0
milliseconds when the key or the `time` field is absent. -/
theorem claim_C3_export_sheet (fields : List (String × JVal))
    (cols rws : List JVal)
    (hc : jGetD fields "columnNames" (.arr []) = .arr cols)
    (hr : jGetD fields "rows" (.arr []) = .arr rws)
    (htd : timerDataOk fields)
    (hrows : ∀ rv ∈ rws, rowOk rv) :
    export_sheet (.obj fields) =
      some ((JVal.str "Task Name" :: cols) ::
        rws.map (exportRowSpec fields cols.length)) := by
  unfold export_sheet
  show (match asArr (jGetD fields "columnNames" (JVal.arr [])) with
    | none => none
    | some cols =>
      match asArr (jGetD fields "rows" (JVal.arr [])) with
      | none => none
      | some rws =>
        match exportRows fields cols.length rws with
        | none => none
        | some dataRows =>
          some ((JVal.str "Task Name" :: cols) :: dataRows)) = _
  rw [hc, hr]
  show (match exportRows fields cols.length rws with
    | none => none
    | some dataRows => some ((JVal.str "Task Name" :: cols) :: dataRows)) = _
  rw [exportRows_eq fields cols.length htd rws hrows]

/-- C3 witness: the spec's concrete example — two columns, one row with
one recorded timer — exports as
`[["Task Name","A","B"],["Task1","00:01.50","00:00.00"]]`. -/
theorem claim_C3_witness :
    export_sheet (.obj
      [("projectName", .str "P"),
       ("columnNames", .arr [.str "A", .str "B"]),
       ("rows", .arr [.obj [("id", .str "r1"), ("name", .str "Task1")]]),
       ("timerData", .obj [("r1-0", .obj [("time", .num 1500)])])]) =
      some [[.str "Task Name", .str "A", .str "B"],
            [.str "Task1", .str "00:01.50", .str "00:00.00"]] := by
  have h := claim_C3_export_sheet
    [("projectName", .str "P"),
     ("columnNames", .arr [.str "A", .str "B"]),
     ("rows", .arr [.obj [("id", .str "r1"), ("name", .str "Task1")]]),
     ("timerData", .obj [("r1-0", .obj [("time", .num 1500)])])]
    [.str "A", .str "B"]
    [.obj [("id", .str "r1"), ("name", .str "Task1")]]
    rfl rfl
    ⟨[("r1-0", .obj [("time", .num 1500)])], rfl, by
      intro p hp
      simp only [List.mem_cons, List.not_mem_nil, or_false] at hp
      subst hp
      exact ⟨[("time", .num 1500)], rfl, by
        intro t ht
        simp [jGet, List.find?] at ht
        subst ht
        exact ⟨1500, rfl⟩⟩⟩
    (by
      intro rv hrv
      simp only [List.mem_cons, List.not_mem_nil, or_false] at hrv
      subst hrv
      exact ⟨_, rfl, "r1", rfl⟩)
  exact h.trans (by rfl)
